import Mathlib

/-!
# Verification of the torque task model (`src/torque/model/orm.py`)

A shallow embedding of the declarative model layer of the torque webhook
task queue: the `BaseMixin` / `LifeCycleMixin` column sets, the `Task`
entity with its `due` / `status` update wiring, and the `__json__`
summary projection.  Datetimes are modelled as natural numbers (an
abstract monotone clock), column values as `Nat` / `String` /
`Option` thereof, and the SQLAlchemy `default` / `onupdate` hooks as
explicit state-transition functions.

Pieces of the repository referenced by `orm.py` but whose bodies live in
modules not present here (`torque/model/due.py` providing `DueFactory`
and `StatusFactory`, `torque/model/constants.py` providing
`TASK_STATUSES`) are modelled from the specification and marked as such
in their doc comments.
-/

namespace Torque

/-- Modelled from the spec: `TASK_STATUSES` (torque/model/constants.py is
not present).  §4.3 fixes the status enumeration as QUEUED, RETRYING,
FAILED, COMPLETED. -/
inductive TaskStatus where
  | queued
  | retrying
  | failed
  | completed
  deriving DecidableEq, Repr

/-- The enum's string value, as stored in the `task_statuses` column. -/
def TaskStatus.text : TaskStatus → String
  | .queued => "queued"
  | .retrying => "retrying"
  | .failed => "failed"
  | .completed => "completed"

/-- Modelled from the spec: `StatusFactory` (torque/model/due.py is not
present).  §4.3: QUEUED when `retry_count == 0`, RETRYING when
`0 < retry_count < MAX_RETRIES`, FAILED when `retry_count >= MAX_RETRIES`;
COMPLETED is not derivable from `retry_count` alone, so it is never
returned.  `MAX_RETRIES` is a configuration constant, passed here as the
`max_retries` argument. -/
def get_status (max_retries retry_count : Nat) : TaskStatus :=
  if retry_count = 0 then .queued
  else if retry_count < max_retries then .retrying
  else .failed

/-- Modelled from the spec: `DueFactory` (torque/model/due.py is not
present).  §4.2 fixes the contract `due(timeout, retry_count) > now`,
non-decreasing in `retry_count`, and suggests the concrete curve
`now + timeout * (retry_count + 1)`; the source comment on `Task.due`
adds that by default the due date is the current time plus the timeout
plus one second, which fixes the value at `retry_count = 0`. -/
def get_due (now timeout retry_count : Nat) : Nat :=
  now + timeout * (retry_count + 1) + 1

/-- The `context.current_parameters` mapping handed by SQLAlchemy to a
column `default` / `onupdate` callable: the parameter values of the
INSERT or UPDATE statement that the `Task` columns read. -/
structure UpdateParams where
  timeout : Nat
  retry_count : Nat

/-- Embeds `next_due(context)`: unpack `timeout` and `retry_count` from
the statement parameters and apply the due-date factory at the current
clock reading. -/
def next_due (now : Nat) (context : UpdateParams) : Nat :=
  get_due now context.timeout context.retry_count

/-- Embeds `next_status(context)`: unpack `retry_count` from the
statement parameters and apply the status factory.  Note that the
current parameters give the callable no access to the stored `status`
column value. -/
def next_status (max_retries : Nat) (context : UpdateParams) : TaskStatus :=
  get_status max_retries context.retry_count

/-- The `version` column default on `BaseMixin` (`default=1`). -/
def version_default : Nat := 1

/-- The life-cycle flag and timestamp columns contributed by
`LifeCycleMixin`. -/
structure LifeCycleState where
  is_active : Bool
  is_deleted : Bool
  activated : Option Nat
  deactivated : Option Nat
  deleted : Option Nat
  undeleted : Option Nat
  deriving DecidableEq, Repr

/-- The column defaults of `LifeCycleMixin`: `is_active` defaults to
true, `is_deleted` to false, and the four datetime columns are nullable
with no default. -/
def LifeCycleState.defaults : LifeCycleState :=
  { is_active := true
    is_deleted := false
    activated := none
    deactivated := none
    deleted := none
    undeleted := none }

/-- Embeds `_set_life_cycle_state` on one flag / datetime column pair:
always set the flag; record the datetime only if the stored flag value
differed from the new one. -/
def set_life_cycle_state (stored_value : Bool) (flag_value : Bool)
    (dt_stored : Option Nat) (now : Nat) : Bool × Option Nat :=
  (flag_value, if stored_value ≠ flag_value then some now else dt_stored)

/-- Embeds `activate()`: `_set_life_cycle_state('is_active', True, 'activated')`. -/
def LifeCycleState.activate (s : LifeCycleState) (now : Nat) : LifeCycleState :=
  let r := set_life_cycle_state s.is_active true s.activated now
  { s with is_active := r.1, activated := r.2 }

/-- Embeds `deactivate()`: `_set_life_cycle_state('is_active', False, 'deactivated')`. -/
def LifeCycleState.deactivate (s : LifeCycleState) (now : Nat) : LifeCycleState :=
  let r := set_life_cycle_state s.is_active false s.deactivated now
  { s with is_active := r.1, deactivated := r.2 }

/-- Embeds `delete()`: `_set_life_cycle_state('is_deleted', True, 'deleted')`. -/
def LifeCycleState.delete (s : LifeCycleState) (now : Nat) : LifeCycleState :=
  let r := set_life_cycle_state s.is_deleted true s.deleted now
  { s with is_deleted := r.1, deleted := r.2 }

/-- Embeds `undelete()`: `_set_life_cycle_state('is_deleted', False, 'undeleted')`. -/
def LifeCycleState.undelete (s : LifeCycleState) (now : Nat) : LifeCycleState :=
  let r := set_life_cycle_state s.is_deleted false s.undeleted now
  { s with is_deleted := r.1, undeleted := r.2 }

/-- The column names contributed by `BaseMixin` (`id`, `created`,
`modified`, `version`). -/
def BaseMixin.columns : List String :=
  ["id", "created", "modified", "version"]

/-- The column names contributed by `LifeCycleMixin`. -/
def LifeCycleMixin.columns : List String :=
  ["is_active", "is_deleted", "activated", "deactivated", "deleted", "undeleted"]

/-- The columns of `Application(Base, BaseMixin, LifeCycleMixin)`. -/
def Application.columns : List String :=
  BaseMixin.columns ++ LifeCycleMixin.columns ++ ["name"]

/-- The columns of `APIKey(Base, BaseMixin, LifeCycleMixin)`. -/
def APIKey.columns : List String :=
  BaseMixin.columns ++ LifeCycleMixin.columns ++ ["app_id", "value"]

/-- The columns of `Task(Base, BaseMixin)`: the base mixin plus the
task's own columns.  `Task` does not inherit `LifeCycleMixin`. -/
def Task.columns : List String :=
  BaseMixin.columns ++
    ["app_id", "timeout", "retry_count", "due", "status",
     "url", "charset", "enctype", "headers", "body"]

/-- The `Task` row: the `BaseMixin` columns plus the task columns of
`orm.py`.  `headers` is nullable with default the empty JSON object and
`body` is nullable with no default, so both are `Option String`. -/
structure Task where
  id : Nat
  created : Nat
  modified : Nat
  version : Nat
  app_id : Option Nat
  timeout : Nat
  retry_count : Nat
  due : Nat
  status : TaskStatus
  url : String
  charset : String
  enctype : String
  headers : Option String
  body : Option String
  deriving DecidableEq, Repr

/-- An UPDATE of a task row that changes `retry_count`, as the column
wiring of `orm.py` performs it: `modified` is refreshed
(`onupdate=datetime.utcnow`), `due` is recomputed (`onupdate=next_due`),
`status` is recomputed (`onupdate=next_status`) — and `version` has no
`onupdate` hook, so it is left unchanged. -/
def orm_update_retry_count (max_retries : Nat) (t : Task)
    (new_retry_count : Nat) (now : Nat) : Task :=
  let params : UpdateParams := { timeout := t.timeout, retry_count := new_retry_count }
  { t with
      retry_count := new_retry_count
      modified := now
      due := next_due now params
      status := next_status max_retries params }

/-- Escape one character of a JSON string literal: a quote or backslash
is preceded by a backslash, every other character stands for itself.
Part of the model of Python's `json` codec (owned by the standard
library, not the repository) restricted to flat string-to-string
objects, which is the shape `Task.headers` stores. -/
def escChar (c : Char) : List Char :=
  if c = '"' ∨ c = '\\' then ['\\', c] else [c]

/-- Escape each character of a JSON string literal's content. -/
def escStr : List Char → List Char
  | [] => []
  | c :: cs => escChar c ++ escStr cs

/-- Serialize one `"key":"value"` member. -/
def encPair (k v : List Char) : List Char :=
  ['"'] ++ escStr k ++ ['"', ':', '"'] ++ escStr v ++ ['"']

/-- Serialize the comma-separated members of a JSON object. -/
def encPairs : List (List Char × List Char) → List Char
  | [] => []
  | [(k, v)] => encPair k v
  | (k, v) :: ps => encPair k v ++ [','] ++ encPairs ps

/-- Serialize a flat string-to-string JSON object. -/
def encObj (m : List (List Char × List Char)) : List Char :=
  ['{'] ++ encPairs m ++ ['}']

/-- Parser states for the flat-object JSON decoder: which token the next
character must belong to, together with the members and literal content
accumulated so far. -/
inductive DecState where
  | openBrace
  | memberOpen (ps : List (List Char × List Char))
  | key (ps : List (List Char × List Char)) (acc : List Char)
  | keyEsc (ps : List (List Char × List Char)) (acc : List Char)
  | colon (ps : List (List Char × List Char)) (k : List Char)
  | valOpen (ps : List (List Char × List Char)) (k : List Char)
  | val (ps : List (List Char × List Char)) (k : List Char) (acc : List Char)
  | valEsc (ps : List (List Char × List Char)) (k : List Char) (acc : List Char)
  | afterPair (ps : List (List Char × List Char))

/-- One-character-at-a-time decoder for a flat string-to-string JSON
object body (the opening brace already consumed); any input outside the
grammar is rejected with `none`, as `json.loads` raises `ValueError` on
malformed documents. -/
def step : DecState → List Char → Option (List (List Char × List Char))
  | .openBrace, c :: rest =>
      if c = '"' then step (.key [] []) rest
      else if c = '}' then (if rest = [] then some [] else none)
      else none
  | .memberOpen ps, c :: rest =>
      if c = '"' then step (.key ps []) rest else none
  | .key ps acc, c :: rest =>
      if c = '\\' then step (.keyEsc ps acc) rest
      else if c = '"' then step (.colon ps acc) rest
      else step (.key ps (acc ++ [c])) rest
  | .keyEsc ps acc, c :: rest => step (.key ps (acc ++ [c])) rest
  | .colon ps k, c :: rest =>
      if c = ':' then step (.valOpen ps k) rest else none
  | .valOpen ps k, c :: rest =>
      if c = '"' then step (.val ps k []) rest else none
  | .val ps k acc, c :: rest =>
      if c = '\\' then step (.valEsc ps k acc) rest
      else if c = '"' then step (.afterPair (ps ++ [(k, acc)])) rest
      else step (.val ps k (acc ++ [c])) rest
  | .valEsc ps k acc, c :: rest => step (.val ps k (acc ++ [c])) rest
  | .afterPair ps, c :: rest =>
      if c = ',' then step (.memberOpen ps) rest
      else if c = '}' then (if rest = [] then some ps else none)
      else none
  | _, [] => none

/-- Decode a flat string-to-string JSON object from a character list. -/
def decObj (s : List Char) : Option (List (List Char × List Char)) :=
  match s with
  | c :: rest => if c = '{' then step .openBrace rest else none
  | [] => none

/-- Model of `json.dumps` on a flat string-to-string mapping: the
structured-text encoding stored in `Task.headers`. -/
def json_dumps (m : List (String × String)) : String :=
  String.mk (encObj (m.map fun p => (p.1.data, p.2.data)))

/-- Model of `json.loads` on the structured text stored in
`Task.headers`: `none` models the `ValueError` raised on a document
outside the flat-object grammar. -/
def json_loads (s : String) : Option (List (String × String)) :=
  (decObj s.data).map (List.map fun p => (String.mk p.1, String.mk p.2))

/-- The default of the `headers` column: the serialized empty object. -/
def headers_default : String := String.mk ['{', '}']

/-- The JSON values occurring in the `__json__` summary projection. -/
inductive JsonValue where
  | str (s : String)
  | num (n : Nat)
  | obj (members : List (String × String))
  | null
  deriving DecidableEq, Repr

/-- Model of `datetime.isoformat()`: an injective textual rendering of
the clock value. -/
def isoformat (dt : Nat) : String := toString dt

/-- Embeds `Task.__json__(request=None, include_request_data=False)`.
The summary dictionary is modelled as an association list in the
insertion order of the Python code.  The base dictionary is always
built; when `include_request_data` is true the payload fields are added,
where `json.loads(self.headers)` raises — modelled by `none` — when
`headers` is NULL (`TypeError`) or not valid structured text
(`ValueError`). -/
def task_json (t : Task) (include_request_data : Bool) :
    Option (List (String × JsonValue)) :=
  let data : List (String × JsonValue) :=
    [("due", .str (isoformat t.due)),
     ("id", .num t.id),
     ("retry_count", .num t.retry_count),
     ("status", .str t.status.text),
     ("timeout", .num t.timeout),
     ("url", .str t.url)]
  if include_request_data then
    match t.headers with
    | none => none
    | some h =>
      match json_loads h with
      | none => none
      | some m =>
        some (data ++
          [("charset", .str t.charset),
           ("enctype", .str t.enctype),
           ("headers", .obj m),
           ("body", match t.body with | none => .null | some b => .str b)])
  else
    some data

/-- Modelled from the spec: the conditional-write primitive of
OptimisticVersioning (§4.5), whose mutation-operation layer is not
present under the model module.  Read the current `version`, compute the
new field values, and write them conditioned on the stored version still
matching the value read, bumping `version` by one; a stale read is
rejected. -/
def conditional_update (t : Task) (read_version : Nat) (mutate : Task → Task) :
    Option Task :=
  if t.version = read_version then
    some { mutate t with version := t.version + 1 }
  else
    none

/-- A concrete task row used to evaluate the model on concrete inputs:
the creation scenario of §8 (`timeout=30, url="https://example.com/hook"`,
`retry_count=0`, status QUEUED, version 1) with a one-entry headers
mapping stored in structured text. -/
def sampleTask : Task :=
  { id := 1
    created := 0
    modified := 0
    version := 1
    app_id := none
    timeout := 30
    retry_count := 0
    due := get_due 0 30 0
    status := .queued
    url := "https://example.com/hook"
    charset := "utf-8"
    enctype := "application/x-www-form-urlencoded"
    headers := some (json_dumps [("x", "y")])
    body := none }

/-- A concrete life-cycle state that is currently deactivated, with no
transition timestamps recorded yet. -/
def sampleLifeCycle : LifeCycleState :=
  { LifeCycleState.defaults with is_active := false }

/-- Scanning an escaped key literal: the decoder consumes the escaped
content up to the closing quote and appends the unescaped characters to
its accumulator. -/
theorem step_key_scan (k : List Char) :
    ∀ (ps : List (List Char × List Char)) (acc rest : List Char),
      step (DecState.key ps acc) (escStr k ++ '"' :: rest) =
        step (DecState.colon ps (acc ++ k)) rest := by
  induction k with
  | nil =>
    intro ps acc rest
    simp [escStr, step]
  | cons c cs ih =>
    intro ps acc rest
    simp only [escStr, List.append_assoc]
    by_cases h : c = '"' ∨ c = '\\'
    · rw [escChar, if_pos h]
      simp only [List.cons_append, List.nil_append]
      rw [show step (DecState.key ps acc) ('\\' :: c :: (escStr cs ++ '"' :: rest)) =
            step (DecState.keyEsc ps acc) (c :: (escStr cs ++ '"' :: rest)) from by
        simp [step]]
      rw [show step (DecState.keyEsc ps acc) (c :: (escStr cs ++ '"' :: rest)) =
            step (DecState.key ps (acc ++ [c])) (escStr cs ++ '"' :: rest) from by
        simp [step]]
      rw [ih]
      simp
    · push_neg at h
      rw [escChar, if_neg (by tauto)]
      simp only [List.cons_append, List.nil_append]
      rw [show step (DecState.key ps acc) (c :: (escStr cs ++ '"' :: rest)) =
            step (DecState.key ps (acc ++ [c])) (escStr cs ++ '"' :: rest) from by
        simp [step, h.1, h.2]]
      rw [ih]
      simp

/-- Scanning an escaped value literal, symmetric to `step_key_scan`. -/
theorem step_val_scan (v : List Char) :
    ∀ (ps : List (List Char × List Char)) (k acc rest : List Char),
      step (DecState.val ps k acc) (escStr v ++ '"' :: rest) =
        step (DecState.afterPair (ps ++ [(k, acc ++ v)])) rest := by
  induction v with
  | nil =>
    intro ps k acc rest
    simp [escStr, step]
  | cons c cs ih =>
    intro ps k acc rest
    simp only [escStr, List.append_assoc]
    by_cases h : c = '"' ∨ c = '\\'
    · rw [escChar, if_pos h]
      simp only [List.cons_append, List.nil_append]
      rw [show step (DecState.val ps k acc) ('\\' :: c :: (escStr cs ++ '"' :: rest)) =
            step (DecState.valEsc ps k acc) (c :: (escStr cs ++ '"' :: rest)) from by
        simp [step]]
      rw [show step (DecState.valEsc ps k acc) (c :: (escStr cs ++ '"' :: rest)) =
            step (DecState.val ps k (acc ++ [c])) (escStr cs ++ '"' :: rest) from by
        simp [step]]
      rw [ih]
      simp
    · push_neg at h
      rw [escChar, if_neg (by tauto)]
      simp only [List.cons_append, List.nil_append]
      rw [show step (DecState.val ps k acc) (c :: (escStr cs ++ '"' :: rest)) =
            step (DecState.val ps k (acc ++ [c])) (escStr cs ++ '"' :: rest) from by
        simp [step, h.1, h.2]]
      rw [ih]
      simp

/-- Consuming one serialized member moves the decoder from expecting a
member to the state after a completed pair. -/
theorem step_pair_scan (k v : List Char) (ps : List (List Char × List Char))
    (T : List Char) :
    step (DecState.memberOpen ps) (encPair k v ++ T) =
      step (DecState.afterPair (ps ++ [(k, v)])) T := by
  simp only [encPair, List.append_assoc, List.cons_append, List.nil_append]
  rw [show step (DecState.memberOpen ps)
        ('"' :: (escStr k ++ '"' :: ':' :: '"' :: (escStr v ++ '"' :: T))) =
      step (DecState.key ps []) (escStr k ++ '"' :: ':' :: '"' :: (escStr v ++ '"' :: T))
      from by simp [step]]
  rw [step_key_scan]
  rw [show step (DecState.colon ps ([] ++ k)) (':' :: '"' :: (escStr v ++ '"' :: T)) =
      step (DecState.valOpen ps ([] ++ k)) ('"' :: (escStr v ++ '"' :: T)) from by
    simp [step]]
  rw [show step (DecState.valOpen ps ([] ++ k)) ('"' :: (escStr v ++ '"' :: T)) =
      step (DecState.val ps ([] ++ k) []) (escStr v ++ '"' :: T) from by
    simp [step]]
  rw [step_val_scan]
  simp

/-- Consuming a nonempty serialized member list followed by the closing
brace yields the accumulated members. -/
theorem step_members_scan (l : List (List Char × List Char)) :
    ∀ (k v : List Char) (ps : List (List Char × List Char)),
      step (DecState.memberOpen ps) (encPairs ((k, v) :: l) ++ ['}']) =
        some (ps ++ (k, v) :: l) := by
  induction l with
  | nil =>
    intro k v ps
    rw [show encPairs [(k, v)] = encPair k v from by simp [encPairs]]
    rw [step_pair_scan]
    simp [step]
  | cons q l' ih =>
    intro k v ps
    obtain ⟨qk, qv⟩ := q
    rw [show encPairs ((k, v) :: (qk, qv) :: l') =
          encPair k v ++ [','] ++ encPairs ((qk, qv) :: l') from by simp [encPairs]]
    rw [List.append_assoc, List.append_assoc, step_pair_scan]
    simp only [List.cons_append, List.nil_append]
    rw [show step (DecState.afterPair (ps ++ [(k, v)]))
          (',' :: (encPairs ((qk, qv) :: l') ++ ['}'])) =
        step (DecState.memberOpen (ps ++ [(k, v)]))
          (encPairs ((qk, qv) :: l') ++ ['}']) from by simp [step]]
    rw [ih]
    simp

/-- On a document whose first member opens with a quote, the initial
state behaves exactly like expecting a member with no members read. -/
theorem step_open_eq_member (k v : List Char) (l : List (List Char × List Char))
    (T : List Char) :
    step DecState.openBrace (encPairs ((k, v) :: l) ++ T) =
      step (DecState.memberOpen []) (encPairs ((k, v) :: l) ++ T) := by
  cases l with
  | nil =>
    simp only [encPairs, encPair, List.append_assoc, List.cons_append, List.nil_append]
    simp [step]
  | cons q l' =>
    obtain ⟨qk, qv⟩ := q
    simp only [encPairs, encPair, List.append_assoc, List.cons_append, List.nil_append]
    simp [step]

/-- The flat-object decoder inverts the flat-object serializer on every
member list. -/
theorem decObj_encObj (m : List (List Char × List Char)) :
    decObj (encObj m) = some m := by
  cases m with
  | nil => simp [encObj, encPairs, decObj, step]
  | cons q l =>
    obtain ⟨k, v⟩ := q
    rw [show encObj ((k, v) :: l) = '{' :: (encPairs ((k, v) :: l) ++ ['}']) from by
      simp [encObj]]
    rw [show decObj ('{' :: (encPairs ((k, v) :: l) ++ ['}'])) =
        step DecState.openBrace (encPairs ((k, v) :: l) ++ ['}']) from by
      simp [decObj]]
    rw [step_open_eq_member, step_members_scan]
    simp

/-- `json.loads` inverts `json.dumps` on every flat string-to-string
mapping. -/
theorem json_loads_dumps (m : List (String × String)) :
    json_loads (json_dumps m) = some m := by
  unfold json_loads json_dumps
  rw [show (String.mk (encObj (m.map fun p => (p.1.data, p.2.data)))).data =
      encObj (m.map fun p => (p.1.data, p.2.data)) from rfl]
  rw [decObj_encObj]
  simp only [Option.map_some', List.map_map]
  exact congrArg some (List.map_id m)

/-- C1: the claim says an automatic status recomputation never moves a
COMPLETED task away from COMPLETED.  In the code the `status` column's
`onupdate=next_status` hook reads only `retry_count` from the statement
parameters, and the status factory never yields COMPLETED, so the
recomputation triggered by a retry-count change overwrites a dispatcher-
set COMPLETED with RETRYING: evaluated here at a COMPLETED task with
`retry_count` moving from 0 to 1 under `MAX_RETRIES = 3`. -/
theorem c1_resolver_overwrites_completed :
    (orm_update_retry_count 3 { sampleTask with status := TaskStatus.completed }
        1 100).status = TaskStatus.retrying ∧
    (TaskStatus.retrying == TaskStatus.completed) = false ∧
    (∀ max_retries retry_count : Nat,
      (get_status max_retries retry_count == TaskStatus.completed) = false) := by
  refine ⟨rfl, by decide, fun max_retries retry_count => ?_⟩
  unfold get_status
  split_ifs <;> decide

/-- C2 counterexample: the claim says every managed entity, including
`Task`, holds the lifecycle fields; but `Task(Base, BaseMixin)` does not
inherit `LifeCycleMixin` and its column set contains neither `is_active`
nor `is_deleted` nor any transition timestamp column. -/
theorem c2_task_has_no_lifecycle_columns :
    LifeCycleMixin.columns.all (fun c => !(Task.columns.contains c)) = true := by
  decide

/-- C2 (amended): the entities that mix in `LifeCycleMixin` —
`Application` and `APIKey`, but not `Task` — hold `is_active` (default
true), `is_deleted` (default false) and the four nullable transition
timestamps (`activated`, `deactivated`, `deleted`, `undeleted`, each
defaulting to NULL); `Task` holds none of the lifecycle columns. -/
theorem c2_lifecycle_columns :
    LifeCycleMixin.columns.all (fun c => Application.columns.contains c) = true ∧
    LifeCycleMixin.columns.all (fun c => APIKey.columns.contains c) = true ∧
    LifeCycleMixin.columns.all (fun c => !(Task.columns.contains c)) = true ∧
    LifeCycleState.defaults.is_active = true ∧
    LifeCycleState.defaults.is_deleted = false ∧
    LifeCycleState.defaults.activated = none ∧
    LifeCycleState.defaults.deactivated = none ∧
    LifeCycleState.defaults.deleted = none ∧
    LifeCycleState.defaults.undeleted = none := by decide

/-- C3: `version` starts at 1 (the column default) and the
conditional-write primitive of OptimisticVersioning increments it by
exactly 1 when the stored version still matches the value read, and
rejects the mutation when the read is stale. -/
theorem c3_version_counter (t : Task) (read_version : Nat)
    (mutate : Task → Task) :
    version_default = 1 ∧
    (t.version = read_version →
      ∃ t', conditional_update t read_version mutate = some t' ∧
        t'.version = t.version + 1) ∧
    (t.version ≠ read_version →
      conditional_update t read_version mutate = none) := by
  refine ⟨rfl, fun h => ?_, fun h => ?_⟩
  · exact ⟨{ mutate t with version := t.version + 1 }, by simp [conditional_update, h], rfl⟩
  · simp [conditional_update, h]

/-- C3 witness: the version counter evaluated on the sample task
(version 1): an update against read version 1 succeeds and yields
version 2, one against read version 2 is rejected. -/
theorem c3_version_counter_witness :
    (∃ t', conditional_update sampleTask 1 id = some t' ∧
      t'.version = sampleTask.version + 1) ∧
    conditional_update sampleTask 2 id = none :=
  ⟨(c3_version_counter sampleTask 1 id).2.1 rfl,
   (c3_version_counter sampleTask 2 id).2.2 (by decide)⟩

/-- C4 counterexample: the claim says calling `activate()` twice in a
row sets the `activated` timestamp on the first call; but on an entity
in the default state (`is_active` already true) the first call writes no
timestamp at all. -/
theorem c4_activate_on_active_writes_no_timestamp :
    (LifeCycleState.defaults.activate 5).activated = none ∧
    ((LifeCycleState.defaults.activate 5).activated == some 5) = false := by decide

/-- C4 (amended): for each of the four lifecycle operations the
transition timestamp is written if and only if the stored flag value
differs from the value being set; in particular calling `activate()`
twice in a row *starting from a deactivated state* sets the `activated`
timestamp on the first call and leaves it unchanged on the second
(starting from an active state, neither call writes it). -/
theorem c4_transition_timestamps (s : LifeCycleState) (t1 t2 : Nat) :
    ((s.activate t1).is_active = true ∧
     (s.is_active = false → (s.activate t1).activated = some t1) ∧
     (s.is_active = true → (s.activate t1).activated = s.activated)) ∧
    ((s.deactivate t1).is_active = false ∧
     (s.is_active = true → (s.deactivate t1).deactivated = some t1) ∧
     (s.is_active = false → (s.deactivate t1).deactivated = s.deactivated)) ∧
    ((s.delete t1).is_deleted = true ∧
     (s.is_deleted = false → (s.delete t1).deleted = some t1) ∧
     (s.is_deleted = true → (s.delete t1).deleted = s.deleted)) ∧
    ((s.undelete t1).is_deleted = false ∧
     (s.is_deleted = true → (s.undelete t1).undeleted = some t1) ∧
     (s.is_deleted = false → (s.undelete t1).undeleted = s.undeleted)) ∧
    (s.is_active = false →
      ((s.activate t1).activate t2).activated = some t1) := by
  obtain ⟨a, d, act, deact, del, undel⟩ := s
  cases a <;> cases d <;>
    simp [LifeCycleState.activate, LifeCycleState.deactivate,
      LifeCycleState.delete, LifeCycleState.undelete, set_life_cycle_state]

/-- C4 witness: the amended statement evaluated on a deactivated state:
the first `activate()` records time 5 and the second (at time 9) leaves
the recorded time 5 unchanged. -/
theorem c4_transition_timestamps_witness :
    (sampleLifeCycle.activate 5).activated = some 5 ∧
    ((sampleLifeCycle.activate 5).activate 9).activated = some 5 :=
  ⟨(c4_transition_timestamps sampleLifeCycle 5 9).1.2.1 rfl,
   (c4_transition_timestamps sampleLifeCycle 5 9).2.2.2.2 rfl⟩

/-- C5: for every `timeout > 0` and `retry_count ≥ 0` the due date
computed by the due-date factory — and hence by the `next_due` hook —
strictly exceeds the clock reading at the time of computation. -/
theorem c5_due_strictly_future (now timeout retry_count : Nat)
    (h : 0 < timeout) :
    now < get_due now timeout retry_count ∧
    now < next_due now { timeout := timeout, retry_count := retry_count } := by
  unfold next_due get_due
  omega

/-- C5 witness: evaluated at clock 0, `timeout = 30`, `retry_count = 0`. -/
theorem c5_due_strictly_future_witness :
    0 < get_due 0 30 0 ∧
    0 < next_due 0 { timeout := 30, retry_count := 0 } :=
  c5_due_strictly_future 0 30 0 (by decide)

/-- C6: for a fixed timeout the computed due date is non-decreasing in
the retry count (monotonic backoff). -/
theorem c6_backoff_monotone (now timeout retry_count₁ retry_count₂ : Nat)
    (h : retry_count₁ ≤ retry_count₂) :
    get_due now timeout retry_count₁ ≤ get_due now timeout retry_count₂ := by
  unfold get_due
  have hm : timeout * (retry_count₁ + 1) ≤ timeout * (retry_count₂ + 1) :=
    Nat.mul_le_mul_left timeout (Nat.succ_le_succ h)
  omega

/-- C6 witness: evaluated at clock 0, `timeout = 30`, retry counts 1 and 4. -/
theorem c6_backoff_monotone_witness :
    get_due 0 30 1 ≤ get_due 0 30 4 :=
  c6_backoff_monotone 0 30 1 4 (by decide)

/-- C7: the summary projection without payload contains exactly the
fields `due` (ISO rendering of the stored value), `id`, `retry_count`,
`status`, `timeout`, `url` in the insertion order of the code; when the
payload is included and the stored headers decode to `m`, it
additionally contains `charset`, `enctype`, the parsed mapping `m`, and
`body`, and nothing else. -/
theorem c7_summary_projection (t : Task) :
    task_json t false =
      some [("due", JsonValue.str (isoformat t.due)),
            ("id", JsonValue.num t.id),
            ("retry_count", JsonValue.num t.retry_count),
            ("status", JsonValue.str t.status.text),
            ("timeout", JsonValue.num t.timeout),
            ("url", JsonValue.str t.url)] ∧
    (∀ (h : String) (m : List (String × String)),
      t.headers = some h → json_loads h = some m →
      task_json t true =
        some [("due", JsonValue.str (isoformat t.due)),
              ("id", JsonValue.num t.id),
              ("retry_count", JsonValue.num t.retry_count),
              ("status", JsonValue.str t.status.text),
              ("timeout", JsonValue.num t.timeout),
              ("url", JsonValue.str t.url),
              ("charset", JsonValue.str t.charset),
              ("enctype", JsonValue.str t.enctype),
              ("headers", JsonValue.obj m),
              ("body", match t.body with
                       | none => JsonValue.null
                       | some b => JsonValue.str b)]) := by
  constructor
  · simp [task_json]
  · intro h m hh hm
    simp [task_json, hh, hm]

/-- C7 witness: both projections evaluated on the sample task, whose
stored headers text is the encoding of the mapping `[("x", "y")]`. -/
theorem c7_summary_projection_witness :
    task_json sampleTask true =
      some [("due", JsonValue.str (isoformat sampleTask.due)),
            ("id", JsonValue.num sampleTask.id),
            ("retry_count", JsonValue.num sampleTask.retry_count),
            ("status", JsonValue.str sampleTask.status.text),
            ("timeout", JsonValue.num sampleTask.timeout),
            ("url", JsonValue.str sampleTask.url),
            ("charset", JsonValue.str sampleTask.charset),
            ("enctype", JsonValue.str sampleTask.enctype),
            ("headers", JsonValue.obj [("x", "y")]),
            ("body", match sampleTask.body with
                     | none => JsonValue.null
                     | some b => JsonValue.str b)] :=
  (c7_summary_projection sampleTask).2 (json_dumps [("x", "y")]) [("x", "y")]
    rfl (json_loads_dumps [("x", "y")])

/-- C8: if a task's headers column stores the structured-text encoding
of a mapping `m`, the payload-including summary projection decodes the
headers entry back to exactly `m`. -/
theorem c8_headers_roundtrip (t : Task) (m : List (String × String))
    (h : t.headers = some (json_dumps m)) :
    task_json t true =
      some [("due", JsonValue.str (isoformat t.due)),
            ("id", JsonValue.num t.id),
            ("retry_count", JsonValue.num t.retry_count),
            ("status", JsonValue.str t.status.text),
            ("timeout", JsonValue.num t.timeout),
            ("url", JsonValue.str t.url),
            ("charset", JsonValue.str t.charset),
            ("enctype", JsonValue.str t.enctype),
            ("headers", JsonValue.obj m),
            ("body", match t.body with
                     | none => JsonValue.null
                     | some b => JsonValue.str b)] := by
  simp [task_json, h, json_loads_dumps]

/-- C8 witness: the round trip evaluated on a task storing the encoding
of the two-entry mapping `[("a", "1"), ("b", "2")]`. -/
theorem c8_headers_roundtrip_witness :
    task_json { sampleTask with headers := some (json_dumps [("a", "1"), ("b", "2")]) }
        true =
      some [("due", JsonValue.str (isoformat sampleTask.due)),
            ("id", JsonValue.num sampleTask.id),
            ("retry_count", JsonValue.num sampleTask.retry_count),
            ("status", JsonValue.str sampleTask.status.text),
            ("timeout", JsonValue.num sampleTask.timeout),
            ("url", JsonValue.str sampleTask.url),
            ("charset", JsonValue.str sampleTask.charset),
            ("enctype", JsonValue.str sampleTask.enctype),
            ("headers", JsonValue.obj [("a", "1"), ("b", "2")]),
            ("body", JsonValue.null)] :=
  c8_headers_roundtrip
    { sampleTask with headers := some (json_dumps [("a", "1"), ("b", "2")]) }
    [("a", "1"), ("b", "2")] rfl

/-- C9: the summary projection without payload never reads or decodes
the headers or body columns: it returns the six base fields for every
task — its result is unchanged under any replacement of `headers` and
`body`, including invalid structured text — so a serialization failure
can only occur when the payload is included. -/
theorem c9_base_projection_never_fails (t : Task) :
    (task_json t false).isSome = true ∧
    (∀ (h : Option String) (b : Option String),
      task_json { t with headers := h, body := b } false = task_json t false) ∧
    task_json { t with headers := some "not structured text" } false =
      some [("due", JsonValue.str (isoformat t.due)),
            ("id", JsonValue.num t.id),
            ("retry_count", JsonValue.num t.retry_count),
            ("status", JsonValue.str t.status.text),
            ("timeout", JsonValue.num t.timeout),
            ("url", JsonValue.str t.url)] := by
  refine ⟨?_, fun h b => ?_, ?_⟩ <;> simp [task_json]

/-- C10: when a task's nullable headers column is NULL, the
payload-including projection produces no summary at all (json.loads
raises on None) — it does not fall back to an empty headers mapping. -/
theorem c10_null_headers_projection_fails (t : Task) (h : t.headers = none) :
    task_json t true = none := by
  simp [task_json, h]

/-- C10 witness: evaluated on the sample task with its headers column
set to NULL. -/
theorem c10_null_headers_projection_fails_witness :
    task_json { sampleTask with headers := none } true = none :=
  c10_null_headers_projection_fails { sampleTask with headers := none } rfl

end Torque
